import Mathlib

/-!
Verification of the session-coordination core of the offix data-collection
backend: a shallow embedding of `session.service.ts` and `sync.gateway.ts`
(NestJS backend), with the TypeORM repositories modelled as lists of rows.
Database rows become structures, enum columns become inductive types,
`Date.now()` / `new Date()` instants become explicit `Nat` parameters, and
uuid generation becomes an explicit fresh-id parameter.  Each gateway
handler becomes a function from the database state (plus its time/id
inputs) to the new state and the list of socket broadcasts it emits.
-/

namespace Offix

/-- `SessionStatus` enum from `entities/session.entity.ts`. -/
inductive SessionStatus where
  | created
  | waitingForMobile
  | ready
  | recording
  | uploading
  | completed
  | failed
deriving DecidableEq

/-- `DeviceType` enum from `entities/device.entity.ts`. -/
inductive DeviceType where
  | desktop
  | mobile
deriving DecidableEq

/-- `ViewType` enum from `entities/device.entity.ts`. -/
inductive ViewType where
  | front
  | side
deriving DecidableEq

/-- `UploadStatus` enum from `entities/recording.entity.ts`. -/
inductive UploadStatus where
  | pending
  | uploading
  | completed
  | failed
deriving DecidableEq

/-- A row of the `sessions` table (`entities/session.entity.ts`).  The jsonb
`metadata` column is modelled as a shallow key/value list. -/
structure Session where
  id : Nat
  sessionCode : String
  status : SessionStatus
  createdAt : Nat
  startedAt : Option Nat
  completedAt : Option Nat
  desktopConnected : Bool
  mobileConnected : Bool
  metadata : List (String × String)
deriving DecidableEq

/-- A row of the `devices` table (`entities/device.entity.ts`). -/
structure Device where
  id : Nat
  sessionId : Nat
  deviceType : DeviceType
  viewType : ViewType
  socketId : Option Nat
  connectedAt : Nat
  disconnectedAt : Option Nat
  userAgent : Option String
deriving DecidableEq

/-- A row of the `recordings` table (`entities/recording.entity.ts`).  The
list holding these rows is kept in creation order, so the `created_at DESC`
query for the latest recording becomes `getLast?`. -/
structure Recording where
  id : Nat
  sessionId : Nat
  deviceId : Nat
  deviceType : DeviceType
  viewType : ViewType
  postureLabel : String
  distance : String
  startTimestamp : Nat
  stopTimestamp : Option Nat
  durationMs : Option Nat
  fileSizeBytes : Option Nat
  uploadStatus : UploadStatus
  uploadStartedAt : Option Nat
  uploadCompletedAt : Option Nat
deriving DecidableEq

/-- A row of the `posture_steps` catalog table
(`entities/posture-step.entity.ts`, seeded by `database-schema.sql`). -/
structure PostureStep where
  id : Nat
  stepOrder : Nat
  postureLabel : String
  displayName : String
  instructions : String
  countdownSeconds : Nat
  recordingDurationSeconds : Nat
  isActive : Bool
deriving DecidableEq

/-- The mutable database state seen by `SessionService`. -/
structure DB where
  sessions : List Session
  devices : List Device
  recordings : List Recording
deriving DecidableEq

/-- One entry of the `recordings` array carried by the `start_recording`
broadcast in `SyncGateway.handleStartRecording`. -/
structure RecordingRef where
  recordingId : Nat
  deviceId : Nat
  deviceType : DeviceType
  viewType : ViewType
deriving DecidableEq

/-- Socket broadcasts emitted to a session room by the gateway handlers
modelled here.  `room` is the session id the event is emitted to. -/
inductive OutEvent where
  | startRecording (room : Nat) (postureLabel : String) (duration : Nat)
      (timestamp : Nat) (recordings : List RecordingRef)
  | recordingUploaded (room : Nat) (recordingId : Nat) (postureLabel : String) (timestamp : Nat)
  | sessionCompleted (room : Nat) (sessionId : Nat) (timestamp : Nat)
deriving DecidableEq

/-- Payload of the `start_recording` client event (`sync.gateway.ts`). -/
structure StartRecordingPayload where
  sessionId : Nat
  postureLabel : String
  distance : String
  duration : Nat
deriving DecidableEq

/-! ## Session registry (`session.service.ts`) -/

/-- The nanoid alphabet from `session.service.ts`:
`customAlphabet('ABCDEFGHJKLMNPQRSTUVWXYZ23456789', 8)`. -/
def sessionCodeAlphabet : List Char := "ABCDEFGHJKLMNPQRSTUVWXYZ23456789".toList

/-- The `nanoid()` code generator: 8 draws from the fixed alphabet.  The
randomness source is modelled by `gen`, giving the raw random value for each
of the 8 character positions of one generated code. -/
def nanoid (gen : Nat → Nat) : String :=
  String.mk ((List.range 8).map
    (fun i => sessionCodeAlphabet.getD (gen i % sessionCodeAlphabet.length) 'A'))

/-- `SessionService.createSession`: generate one code with `nanoid()`, build
a session row with status CREATED, and save it.  The save hits the unique
constraint on `session_code` when the code already exists, which surfaces as
an error to the caller (there is no retry loop in the source). -/
def createSession (st : DB) (gen : Nat → Nat) (newId createdAt : Nat) :
    Except String (DB × Session) :=
  let code := nanoid gen
  if st.sessions.any (fun s => decide (s.sessionCode = code)) then
    Except.error "duplicate key value violates unique constraint"
  else
    let sess : Session :=
      { id := newId, sessionCode := code, status := SessionStatus.created,
        createdAt := createdAt, startedAt := none, completedAt := none,
        desktopConnected := false, mobileConnected := false, metadata := [] }
    Except.ok ({ st with sessions := st.sessions ++ [sess] }, sess)

/-- `SessionService.updateDeviceConnection`: set the connection flag for the
given role, then recompute the status on the CREATED / WAITING_FOR_MOBILE /
READY branch only. -/
def updateDeviceConnection (s : Session) (dt : DeviceType) (connected : Bool) : Session :=
  let s1 :=
    if dt = DeviceType.desktop then { s with desktopConnected := connected }
    else { s with mobileConnected := connected }
  if s1.desktopConnected && s1.mobileConnected then
    if s1.status = SessionStatus.created ∨ s1.status = SessionStatus.waitingForMobile then
      { s1 with status := SessionStatus.ready }
    else s1
  else if s1.desktopConnected && !s1.mobileConnected then
    if s1.status = SessionStatus.created then
      { s1 with status := SessionStatus.waitingForMobile }
    else s1
  else s1

/-- `SessionService.disconnectDevice`: find the device row, stamp its
disconnect time and clear its socket id, then recompute the session's
connection flags via `updateDeviceConnection(sessionId, deviceType, false)`.
A missing device id is a no-op. -/
def disconnectDevice (st : DB) (did : Nat) (now : Nat) : DB :=
  match st.devices.find? (fun x => decide (x.id = did)) with
  | none => st
  | some d =>
    { st with
      devices := st.devices.map (fun x =>
        if x.id = did then { x with socketId := none, disconnectedAt := some now } else x),
      sessions := st.sessions.map (fun s =>
        if s.id = d.sessionId then updateDeviceConnection s d.deviceType false else s) }

/-- `SessionService.updateSessionStatus`: set the status; stamp `startedAt`
on a transition to RECORDING when it is still unset; stamp `completedAt` on
every transition to COMPLETED. -/
def updateSessionStatus (s : Session) (status : SessionStatus) (now : Nat) : Session :=
  let s1 := { s with status := status }
  let s2 :=
    if status = SessionStatus.recording ∧ s1.startedAt = none then
      { s1 with startedAt := some now }
    else s1
  if status = SessionStatus.completed then { s2 with completedAt := some now } else s2

/-! ## Recording ledger (`session.service.ts`) -/

/-- The recording rows of one (session, postureLabel, distance) key — the
`stepRecordings` query of `checkCurrentStepRecordingsCompleted` and the
filter of `deleteRecordingsByPostureAndDistance`. -/
def pairRecs (recs : List Recording) (sid : Nat) (pl d : String) : List Recording :=
  recs.filter (fun r => decide (r.sessionId = sid ∧ r.postureLabel = pl ∧ r.distance = d))

/-- `SessionService.deleteRecordingsByPostureAndDistance`: delete every
recording row matching (sessionId, postureLabel, distance). -/
def deleteRecordingsByPostureAndDistance (recs : List Recording) (sid : Nat) (pl d : String) :
    List Recording :=
  recs.filter (fun r => decide (¬ (r.sessionId = sid ∧ r.postureLabel = pl ∧ r.distance = d)))

/-- The `stepComplete` pair check of `checkCurrentStepRecordingsCompleted`:
exactly two rows exist for the key and every one of them is COMPLETED. -/
def isPairComplete (recs : List Recording) (sid : Nat) (pl d : String) : Bool :=
  (pairRecs recs sid pl d).length == 2 &&
    (pairRecs recs sid pl d).all (fun r => decide (r.uploadStatus = UploadStatus.completed))

/-- The sequencer's completed-combinations query in `getNextPostureStep`:
(posture_label, distance) keys whose rows with status UPLOADING or COMPLETED
span two distinct device types (`COUNT(DISTINCT device_type) = 2`). -/
def seqCompletedCombos (sid : Nat) (recs : List Recording) : List (String × String) :=
  let good := recs.filter (fun r =>
    decide (r.sessionId = sid ∧
      (r.uploadStatus = UploadStatus.uploading ∨ r.uploadStatus = UploadStatus.completed)))
  ((good.map (fun r => (r.postureLabel, r.distance))).dedup).filter
    (fun k => decide
      (((good.filter (fun r => decide (r.postureLabel = k.1 ∧ r.distance = k.2))).map
          (fun r => r.deviceType)).dedup.length = 2))

/-- The session-completion query of `checkCurrentStepRecordingsCompleted`:
(posture_label, distance) keys with exactly two rows of status COMPLETED
(`HAVING COUNT(*) = 2` over the COMPLETED rows). -/
def uploadCompletedCombos (sid : Nat) (recs : List Recording) : List (String × String) :=
  let good := recs.filter (fun r =>
    decide (r.sessionId = sid ∧ r.uploadStatus = UploadStatus.completed))
  ((good.map (fun r => (r.postureLabel, r.distance))).dedup).filter
    (fun k => decide
      ((good.filter (fun r => decide (r.postureLabel = k.1 ∧ r.distance = k.2))).length = 2))

/-- `updateRecordingUploadStatus`'s per-row mutation: set the status; stamp
`uploadStartedAt` on UPLOADING; on COMPLETED stamp `uploadCompletedAt` and
record the size when the given size is truthy (JS `if (fileSizeBytes)`,
so a zero size is skipped). -/
def applyUploadStatus (r : Recording) (status : UploadStatus) (fs : Option Nat) (now : Nat) :
    Recording :=
  let r1 := { r with uploadStatus := status }
  let r2 :=
    if status = UploadStatus.uploading then { r1 with uploadStartedAt := some now } else r1
  if status = UploadStatus.completed then
    { r2 with
      uploadCompletedAt := some now,
      fileSizeBytes :=
        match fs with
        | some n => if n = 0 then r2.fileSizeBytes else some n
        | none => r2.fileSizeBytes }
  else r2

/-- `SessionService.updateRecordingUploadStatus` applied to the recordings
table (the row lookup happens in the calling handler). -/
def updateRecordingUploadStatus (recs : List Recording) (rid : Nat) (status : UploadStatus)
    (fs : Option Nat) (now : Nat) : List Recording :=
  recs.map (fun r => if r.id = rid then applyUploadStatus r status fs now else r)

/-! ## Step sequencer (`SessionService.getNextPostureStep`) -/

/-- Catalog ordering key: `ORDER BY step_order ASC`. -/
def stepLE (a b : PostureStep) : Prop := a.stepOrder ≤ b.stepOrder

instance : DecidableRel stepLE := fun a b => Nat.decLe a.stepOrder b.stepOrder

instance : IsTotal PostureStep stepLE := ⟨fun a b => Nat.le_total a.stepOrder b.stepOrder⟩

instance : IsTrans PostureStep stepLE := ⟨fun _ _ _ h1 h2 => Nat.le_trans h1 h2⟩

/-- The catalog as the sequencer reads it:
`find({ where: { isActive: true }, order: { stepOrder: 'ASC' } })`. -/
def activeStepsSorted (steps : List PostureStep) : List PostureStep :=
  List.insertionSort stepLE (steps.filter (fun s => s.isActive))

/-- The sequencer's `currentDistance`: the distance of the most recently
created recording of the session, defaulting to `"nom"`. -/
def currentDistanceOf (sid : Nat) (recs : List Recording) : String :=
  match (recs.filter (fun r => decide (r.sessionId = sid))).getLast? with
  | some r => r.distance
  | none => "nom"

/-- The sequencer's `excludedAtCurrentDistance`: labels of completed
combinations at the current distance, plus the hinted current label when
one is provided. -/
def excludedLabels (sid : Nat) (recs : List Recording) (hint : Option String) : List String :=
  (((seqCompletedCombos sid recs).filter
      (fun c => decide (c.2 = currentDistanceOf sid recs))).map (fun c => c.1))
    ++ hint.toList

/-- Number of completed combinations at one distance (the sequencer's
`completedAtNom` / `completedAtClose` / `completedAtFar` counters). -/
def countCombosAt (sid : Nat) (recs : List Recording) (d : String) : Nat :=
  ((seqCompletedCombos sid recs).filter (fun c => decide (c.2 = d))).length

/-- `SessionService.getNextPostureStep`: scan the active catalog in ordinal
order for a step not excluded at the current distance; otherwise advance
nom → close → far when the count of completed combinations at the current
distance has reached the catalog size, report no next step after far, and
fall back to the first step at the current distance in every other case. -/
def getNextPostureStep (recs : List Recording) (steps : List PostureStep) (sid : Nat)
    (hint : Option String) : Option PostureStep × String :=
  match (activeStepsSorted steps).find?
      (fun s => decide (s.postureLabel ∉ excludedLabels sid recs hint)) with
  | some s => (some s, currentDistanceOf sid recs)
  | none =>
    if currentDistanceOf sid recs = "nom" ∧
        (activeStepsSorted steps).length ≤ countCombosAt sid recs "nom" then
      ((activeStepsSorted steps).head?, "close")
    else if currentDistanceOf sid recs = "close" ∧
        (activeStepsSorted steps).length ≤ countCombosAt sid recs "close" then
      ((activeStepsSorted steps).head?, "far")
    else if currentDistanceOf sid recs = "far" ∧
        (activeStepsSorted steps).length ≤ countCombosAt sid recs "far" then
      (none, currentDistanceOf sid recs)
    else ((activeStepsSorted steps).head?, currentDistanceOf sid recs)

/-! ## Synchronization coordinator (`sync.gateway.ts`) -/

/-- The recording rows created by the loop in
`SyncGateway.handleStartRecording`: one per device row of the session, every
one with the same start timestamp, posture label and distance.  `startId`
models the uuid generator (row i gets id `startId + i`). -/
def openRecordings (sid : Nat) (pl dist : String) (ts : Nat) (devs : List Device)
    (startId : Nat) : List Recording :=
  devs.enum.map (fun p =>
    { id := startId + p.1, sessionId := sid, deviceId := p.2.id, deviceType := p.2.deviceType,
      viewType := p.2.viewType, postureLabel := pl, distance := dist, startTimestamp := ts,
      stopTimestamp := none, durationMs := none, fileSizeBytes := none,
      uploadStatus := UploadStatus.pending, uploadStartedAt := none,
      uploadCompletedAt := none })

/-- `SyncGateway.handleStartRecording`: set the session status to RECORDING,
load the session's device rows, capture `Date.now()` once as `timestamp`,
create one recording per device, and emit a single `start_recording`
broadcast to the session room carrying that one timestamp. -/
def handleStartRecording (st : DB) (p : StartRecordingPayload) (now startId : Nat) :
    DB × List OutEvent :=
  let sessions := st.sessions.map (fun s =>
    if s.id = p.sessionId then updateSessionStatus s SessionStatus.recording now else s)
  let devs := st.devices.filter (fun d => decide (d.sessionId = p.sessionId))
  let newRecs := openRecordings p.sessionId p.postureLabel p.distance now devs startId
  let refs := newRecs.map (fun r =>
    ({ recordingId := r.id, deviceId := r.deviceId, deviceType := r.deviceType,
       viewType := r.viewType } : RecordingRef))
  ({ sessions := sessions, devices := st.devices, recordings := st.recordings ++ newRecs },
   [OutEvent.startRecording p.sessionId p.postureLabel p.duration now refs])

/-- The recordings table right after `handleUploadCompleted` marks the
recording COMPLETED (its first `updateRecordingUploadStatus` call). -/
def afterUpload (st : DB) (rid fs now : Nat) : List Recording :=
  updateRecordingUploadStatus st.recordings rid UploadStatus.completed (some fs) now

/-- `SyncGateway.handleUploadCompleted`: mark the recording COMPLETED, then
run `checkCurrentStepRecordingsCompleted`; when the (step, distance) pair is
complete emit `recording_uploaded`, and when additionally the number of
fully-COMPLETED combinations has reached `totalSteps * 3` set the session
status to COMPLETED and emit `session_completed`.  A missing recording id
throws inside the service before any save, which the gateway catches: no
state change and no broadcast. -/
def handleUploadCompleted (st : DB) (steps : List PostureStep) (rid fs now : Nat) :
    DB × List OutEvent :=
  let recs := afterUpload st rid fs now
  match recs.find? (fun x => decide (x.id = rid)) with
  | none => (st, [])
  | some recording =>
    let stepComplete :=
      isPairComplete recs recording.sessionId recording.postureLabel recording.distance
    let allStepsComplete :=
      decide (steps.length * 3 ≤ (uploadCompletedCombos recording.sessionId recs).length)
    if stepComplete then
      if allStepsComplete then
        ({ st with
            recordings := recs,
            sessions := st.sessions.map (fun s =>
              if s.id = recording.sessionId then
                updateSessionStatus s SessionStatus.completed now
              else s) },
         [OutEvent.recordingUploaded recording.sessionId rid recording.postureLabel now,
          OutEvent.sessionCompleted recording.sessionId recording.sessionId now])
      else
        ({ st with recordings := recs },
         [OutEvent.recordingUploaded recording.sessionId rid recording.postureLabel now])
    else ({ st with recordings := recs }, [])

/-! ## Concrete states used by witnesses and counterexamples -/

/-- A recording row of session 0 with the given id, device, key and status. -/
def mkRec (rid devId : Nat) (dt : DeviceType) (pl d : String) (us : UploadStatus) : Recording :=
  { id := rid, sessionId := 0, deviceId := devId, deviceType := dt, viewType := ViewType.front,
    postureLabel := pl, distance := d, startTimestamp := 0, stopTimestamp := none,
    durationMs := none, fileSizeBytes := none, uploadStatus := us,
    uploadStartedAt := none, uploadCompletedAt := none }

/-- A one-step catalog: the single active step `"a"`. -/
def stepA : PostureStep :=
  { id := 1, stepOrder := 1, postureLabel := "a", displayName := "A", instructions := "sit",
    countdownSeconds := 3, recordingDurationSeconds := 10, isActive := true }

def steps1 : List PostureStep := [stepA]

/-- Session 0 in READY state with both devices connected. -/
def sessReady : Session :=
  { id := 0, sessionCode := "RDYRDYRD", status := SessionStatus.ready, createdAt := 0,
    startedAt := none, completedAt := none, desktopConnected := true, mobileConnected := true,
    metadata := [] }

/-- Session 0 in RECORDING state. -/
def sessRec : Session :=
  { id := 0, sessionCode := "RECRECRE", status := SessionStatus.recording, createdAt := 0,
    startedAt := some 1, completedAt := none, desktopConnected := true, mobileConnected := true,
    metadata := [] }

/-- Session 0 in UPLOADING state. -/
def sessUp : Session :=
  { id := 0, sessionCode := "UPLUPLUP", status := SessionStatus.uploading, createdAt := 0,
    startedAt := some 1, completedAt := none, desktopConnected := true, mobileConnected := true,
    metadata := [] }

/-- A freshly created session with neither role connected. -/
def sessC9 : Session :=
  { id := 3, sessionCode := "CRTCRTCR", status := SessionStatus.created, createdAt := 0,
    startedAt := none, completedAt := none, desktopConnected := false, mobileConnected := false,
    metadata := [] }

/-- A session whose code is the one `nanoid (fun _ => 0)` generates. -/
def sessAAA : Session :=
  { id := 4, sessionCode := "AAAAAAAA", status := SessionStatus.created, createdAt := 0,
    startedAt := none, completedAt := none, desktopConnected := false, mobileConnected := false,
    metadata := [] }

/-- Desktop device of session 0, currently connected (live socket). -/
def devD : Device :=
  { id := 1, sessionId := 0, deviceType := DeviceType.desktop, viewType := ViewType.front,
    socketId := some 3, connectedAt := 0, disconnectedAt := none, userAgent := none }

/-- Mobile device of session 0, currently disconnected (socket cleared). -/
def devMGone : Device :=
  { id := 2, sessionId := 0, deviceType := DeviceType.mobile, viewType := ViewType.side,
    socketId := none, disconnectedAt := some 4, connectedAt := 0, userAgent := none }

/-- Mobile device of session 0, currently connected. -/
def devM : Device :=
  { id := 5, sessionId := 0, deviceType := DeviceType.mobile, viewType := ViewType.side,
    socketId := some 9, connectedAt := 0, disconnectedAt := none, userAgent := none }

/-- State for the begin-recording counterexample: one connected and one
disconnected device row, both registered to session 0. -/
def stC1 : DB := { sessions := [sessReady], devices := [devD, devMGone], recordings := [] }

def payC1 : StartRecordingPayload :=
  { sessionId := 0, postureLabel := "a", distance := "nom", duration := 10000 }

/-- State for the disconnect witness: session 0 recording, mobile connected. -/
def st5 : DB := { sessions := [sessRec], devices := [devM], recordings := [] }

/-- Step `"a"` fully counted at distance nom (both roles UPLOADING). -/
def recsNomDone : List Recording :=
  [mkRec 1 1 DeviceType.desktop "a" "nom" UploadStatus.uploading,
   mkRec 2 2 DeviceType.mobile "a" "nom" UploadStatus.uploading]

/-- Step `"a"` counted at distance far only — nothing at nom or close. -/
def recsFarOnly : List Recording :=
  [mkRec 1 1 DeviceType.desktop "a" "far" UploadStatus.uploading,
   mkRec 2 2 DeviceType.mobile "a" "far" UploadStatus.uploading]

/-- A COMPLETED pair for (`"a"`, nom), as input of the re-record reset. -/
def recsC6 : List Recording :=
  [mkRec 1 1 DeviceType.desktop "a" "nom" UploadStatus.completed,
   mkRec 2 2 DeviceType.mobile "a" "nom" UploadStatus.completed]

/-- Recordings of the upload-completed witness: every pair of the one-step
catalog is COMPLETED except the mobile row at far (id 6), which the handled
event completes. -/
def recs7 : List Recording :=
  [mkRec 1 1 DeviceType.desktop "a" "nom" UploadStatus.completed,
   mkRec 2 2 DeviceType.mobile "a" "nom" UploadStatus.completed,
   mkRec 3 1 DeviceType.desktop "a" "close" UploadStatus.completed,
   mkRec 4 2 DeviceType.mobile "a" "close" UploadStatus.completed,
   mkRec 5 1 DeviceType.desktop "a" "far" UploadStatus.completed,
   mkRec 6 2 DeviceType.mobile "a" "far" UploadStatus.uploading]

def st7 : DB := { sessions := [sessUp], devices := [devD, devM], recordings := recs7 }

/-- State with a session already holding the code `"AAAAAAAA"`. -/
def st8 : DB := { sessions := [sessAAA], devices := [], recordings := [] }

/-- The empty database. -/
def db0 : DB := { sessions := [], devices := [], recordings := [] }

/-! ## Helper lemmas -/

/-- The connection-flag recomputation never moves a session out of
RECORDING, UPLOADING or COMPLETED: its only transitions target READY and
WAITING_FOR_MOBILE and fire from CREATED / WAITING_FOR_MOBILE alone. -/
theorem updateDeviceConnection_status_late (s : Session) (dt : DeviceType) (c : Bool)
    (h : s.status = SessionStatus.recording ∨ s.status = SessionStatus.uploading ∨
      s.status = SessionStatus.completed) :
    (updateDeviceConnection s dt c).status = s.status := by
  rcases h with h | h | h <;> cases dt <;> simp [updateDeviceConnection, h]

/-- The connection-flag recomputation writes exactly the flag of the given
role; the status branches touch only `status`. -/
theorem updateDeviceConnection_flags (s : Session) (dt : DeviceType) (c : Bool) :
    ((updateDeviceConnection s dt c).desktopConnected
        = if dt = DeviceType.desktop then c else s.desktopConnected)
    ∧ ((updateDeviceConnection s dt c).mobileConnected
        = if dt = DeviceType.desktop then s.mobileConnected else c) := by
  cases dt <;> simp [updateDeviceConnection] <;> split_ifs <;> simp

/-! ## Claim theorems -/

/-- C9: when the mobile role's flag is recomputed with the desktop role not
connected, the session status is untouched (no transition branch matches the
mobile-only flag combination), so a freshly created session stays CREATED. -/
theorem posture_C9 (s : Session) (h : s.desktopConnected = false) :
    (updateDeviceConnection s DeviceType.mobile true).status = s.status
    ∧ (updateDeviceConnection s DeviceType.mobile true).mobileConnected = true := by
  simp [updateDeviceConnection, h]

/-- C9 witness: the concrete freshly created session keeps status CREATED
when mobile joins first. -/
theorem posture_C9_witness :
    (updateDeviceConnection sessC9 DeviceType.mobile true).status = sessC9.status
    ∧ (updateDeviceConnection sessC9 DeviceType.mobile true).mobileConnected = true :=
  posture_C9 sessC9 rfl

/-- C10: `updateSessionStatus` sets the status, stamps `startedAt` exactly
on a RECORDING transition with `startedAt` still unset (so a set `startedAt`
is never overwritten), stamps `completedAt` on every COMPLETED transition,
and leaves every other session field unchanged. -/
theorem posture_C10 (s : Session) (status : SessionStatus) (now : Nat) :
    (updateSessionStatus s status now).status = status
    ∧ (updateSessionStatus s status now).startedAt
        = (if status = SessionStatus.recording ∧ s.startedAt = none then some now
           else s.startedAt)
    ∧ (updateSessionStatus s status now).completedAt
        = (if status = SessionStatus.completed then some now else s.completedAt)
    ∧ (updateSessionStatus s status now).id = s.id
    ∧ (updateSessionStatus s status now).sessionCode = s.sessionCode
    ∧ (updateSessionStatus s status now).createdAt = s.createdAt
    ∧ (updateSessionStatus s status now).desktopConnected = s.desktopConnected
    ∧ (updateSessionStatus s status now).mobileConnected = s.mobileConnected
    ∧ (updateSessionStatus s status now).metadata = s.metadata := by
  unfold updateSessionStatus
  by_cases h1 : status = SessionStatus.recording ∧ s.startedAt = none <;>
    by_cases h2 : status = SessionStatus.completed <;>
      simp [h1, h2]

/-- C5: handling a transport disconnect (`disconnectDevice` and the
connection-flag recomputation it triggers) clears the device's socket id and
the session's connection flag for that role, but never changes the status of
a session that is RECORDING, UPLOADING or COMPLETED. -/
theorem posture_C5 (st : DB) (did now : Nat) (d : Device)
    (hfind : st.devices.find? (fun x => decide (x.id = did)) = some d)
    (i : Nat) (s s1 : Session)
    (hs : st.sessions[i]? = some s)
    (hs1 : (disconnectDevice st did now).sessions[i]? = some s1)
    (hstat : s.status = SessionStatus.recording ∨ s.status = SessionStatus.uploading ∨
      s.status = SessionStatus.completed) :
    s1.status = s.status
    ∧ (s.id = d.sessionId →
        (if d.deviceType = DeviceType.desktop then s1.desktopConnected = false
         else s1.mobileConnected = false))
    ∧ (∀ (j : Nat) (x x1 : Device), st.devices[j]? = some x →
        (disconnectDevice st did now).devices[j]? = some x1 → x.id = did →
        x1.socketId = none) := by
  have hD : disconnectDevice st did now =
      { st with
        devices := st.devices.map (fun x =>
          if x.id = did then { x with socketId := none, disconnectedAt := some now } else x),
        sessions := st.sessions.map (fun s2 =>
          if s2.id = d.sessionId then updateDeviceConnection s2 d.deviceType false else s2) } := by
    unfold disconnectDevice
    rw [hfind]
  rw [hD] at hs1
  rw [List.getElem?_map, hs] at hs1
  simp only [Option.map_some'] at hs1
  injection hs1 with hs1
  subst hs1
  refine ⟨?_, ?_, ?_⟩
  · by_cases hid : s.id = d.sessionId
    · simpa [hid] using updateDeviceConnection_status_late s d.deviceType false hstat
    · simp [hid]
  · intro hid
    have hf := updateDeviceConnection_flags s d.deviceType false
    by_cases hdt : d.deviceType = DeviceType.desktop
    · simp only [hid, if_pos, hdt, if_true, reduceIte]
      simpa [hdt] using hf.1
    · simp only [hid, reduceIte, hdt]
      simpa [hdt] using hf.2
  · intro j x x1 hx hx1 hxid
    rw [hD] at hx1
    rw [List.getElem?_map, hx] at hx1
    simp only [Option.map_some'] at hx1
    injection hx1 with hx1
    subst hx1
    simp [hxid]

/-- C5 witness: disconnecting the connected mobile device of the concrete
RECORDING session leaves its status RECORDING. -/
theorem posture_C5_witness :
    (updateDeviceConnection sessRec DeviceType.mobile false).status = sessRec.status :=
  (posture_C5 st5 5 7 devM rfl 0 sessRec
    (updateDeviceConnection sessRec DeviceType.mobile false) rfl rfl (Or.inl rfl)).1

/-- C6: after deleting the recording rows of a (session, step, distance)
key, the pair-completeness check for that key is false and the key no longer
appears in the sequencer's completed-combinations set. -/
theorem posture_C6 (recs : List Recording) (sid : Nat) (pl d : String) :
    isPairComplete (deleteRecordingsByPostureAndDistance recs sid pl d) sid pl d = false
    ∧ (pl, d) ∉ seqCompletedCombos sid (deleteRecordingsByPostureAndDistance recs sid pl d) := by
  have hnil : pairRecs (deleteRecordingsByPostureAndDistance recs sid pl d) sid pl d = [] := by
    rw [pairRecs]
    rw [List.filter_eq_nil_iff]
    intro r hr
    have h1 := (List.mem_filter.mp hr).2
    simp only [decide_eq_true_eq] at h1 ⊢
    exact h1
  refine ⟨?_, ?_⟩
  · simp [isPairComplete, hnil]
  · intro hmem
    simp only [seqCompletedCombos] at hmem
    obtain ⟨hk, -⟩ := List.mem_filter.mp hmem
    rw [List.mem_dedup] at hk
    obtain ⟨r, hrg, hreq⟩ := List.mem_map.mp hk
    obtain ⟨hrdel, hcond⟩ := List.mem_filter.mp hrg
    have h1 := (List.mem_filter.mp hrdel).2
    simp only [decide_eq_true_eq] at h1 hcond
    have hpl : r.postureLabel = pl := congrArg Prod.fst hreq
    have hd : r.distance = d := congrArg Prod.snd hreq
    exact h1 ⟨hcond.1, hpl, hd⟩

/-- C6 witness: deleting the COMPLETED pair for (`"a"`, nom) makes the pair
check false and removes the key from the completed-combinations set. -/
theorem posture_C6_witness :
    isPairComplete (deleteRecordingsByPostureAndDistance recsC6 0 "a" "nom") 0 "a" "nom" = false
    ∧ ("a", "nom") ∉ seqCompletedCombos 0
        (deleteRecordingsByPostureAndDistance recsC6 0 "a" "nom") :=
  posture_C6 recsC6 0 "a" "nom"

/-- C1 counterexample: in `stC1` only one device is currently attached to
session 0 (the mobile row's socket is cleared), yet the begin-recording
handler creates two recording rows — one per registered device row, attached
or not. -/
theorem posture_C1_cex :
    ((handleStartRecording stC1 payC1 50 10).1.recordings.drop stC1.recordings.length).length = 2
    ∧ (stC1.devices.filter
        (fun d => decide (d.sessionId = payC1.sessionId ∧ d.socketId ≠ none))).length = 1 := by
  decide

/-- C1 (amended): for every begin-recording event, with N device rows
registered to the session (connected or not), exactly N recording rows are
created, all sharing the one start timestamp, posture label and distance,
and the single broadcast to the session room carries that same timestamp. -/
theorem posture_C1_amended (st : DB) (p : StartRecordingPayload) (now startId : Nat) :
    ((handleStartRecording st p now startId).1.recordings.drop st.recordings.length).length
        = (st.devices.filter (fun d => decide (d.sessionId = p.sessionId))).length
    ∧ (∀ r ∈ (handleStartRecording st p now startId).1.recordings.drop st.recordings.length,
        r.startTimestamp = now ∧ r.postureLabel = p.postureLabel ∧ r.distance = p.distance
          ∧ r.sessionId = p.sessionId)
    ∧ (∃ refs, (handleStartRecording st p now startId).2
          = [OutEvent.startRecording p.sessionId p.postureLabel p.duration now refs]
        ∧ refs.length
            = (st.devices.filter (fun d => decide (d.sessionId = p.sessionId))).length) := by
  have hdrop : (handleStartRecording st p now startId).1.recordings.drop st.recordings.length
      = openRecordings p.sessionId p.postureLabel p.distance now
          (st.devices.filter (fun d => decide (d.sessionId = p.sessionId))) startId := by
    show (st.recordings ++ _).drop st.recordings.length = _
    rw [List.drop_left]
  refine ⟨?_, ?_, ?_⟩
  · rw [hdrop]
    simp [openRecordings]
  · rw [hdrop]
    intro r hr
    simp only [openRecordings, List.mem_map] at hr
    obtain ⟨q, -, rfl⟩ := hr
    exact ⟨rfl, rfl, rfl, rfl⟩
  · refine ⟨_, rfl, ?_⟩
    simp [openRecordings]

/-- C1 witness: on the concrete state the number of created rows equals the
number of registered device rows of the session. -/
theorem posture_C1_witness :
    ((handleStartRecording stC1 payC1 50 10).1.recordings.drop stC1.recordings.length).length
      = (stC1.devices.filter (fun d => decide (d.sessionId = payC1.sessionId))).length :=
  (posture_C1_amended stC1 payC1 50 10).1

/-- C8 counterexample: `createSession` makes exactly one `nanoid()` call and
saves; with an existing session already holding the code that call
generates, the unique-constraint violation is surfaced to the caller — there
is no internal retry. -/
theorem posture_C8_cex :
    createSession st8 (fun _ => 0) 9 0
      = Except.error "duplicate key value violates unique constraint" := rfl

/-- C8 (amended): the generated join code has fixed length 8 over the fixed
alphabet ABCDEFGHJKLMNPQRSTUVWXYZ23456789 (the visually ambiguous I, O, 0, 1
are excluded); on a code collision the uniqueness violation is surfaced to
the caller (no internal retry), and otherwise the session is persisted with
that code and status CREATED. -/
theorem posture_C8_amended (st : DB) (gen : Nat → Nat) (newId createdAt : Nat) :
    (nanoid gen).length = 8
    ∧ (∀ c ∈ (nanoid gen).toList, c ∈ sessionCodeAlphabet)
    ∧ ('I' ∉ sessionCodeAlphabet ∧ 'O' ∉ sessionCodeAlphabet ∧ '0' ∉ sessionCodeAlphabet
        ∧ '1' ∉ sessionCodeAlphabet)
    ∧ ((∃ s ∈ st.sessions, s.sessionCode = nanoid gen) →
        createSession st gen newId createdAt
          = Except.error "duplicate key value violates unique constraint")
    ∧ ((∀ s ∈ st.sessions, s.sessionCode ≠ nanoid gen) →
        ∃ sess, createSession st gen newId createdAt
            = Except.ok ({ st with sessions := st.sessions ++ [sess] }, sess)
          ∧ sess.sessionCode = nanoid gen ∧ sess.status = SessionStatus.created) := by
  refine ⟨?_, ?_, by decide, ?_, ?_⟩
  · simp [nanoid, String.length]
  · intro c hc
    simp only [nanoid, String.toList] at hc
    obtain ⟨i, -, rfl⟩ := List.mem_map.mp hc
    have hlt : gen i % sessionCodeAlphabet.length < sessionCodeAlphabet.length :=
      Nat.mod_lt _ (by decide)
    rw [List.getD_eq_getElem _ _ hlt]
    exact List.getElem_mem hlt
  · rintro ⟨s, hs, hcode⟩
    unfold createSession
    have hany : st.sessions.any (fun x => decide (x.sessionCode = nanoid gen)) = true := by
      rw [List.any_eq_true]
      exact ⟨s, hs, by simp [hcode]⟩
    rw [if_pos hany]
  · intro h
    have hno : ¬ st.sessions.any (fun x => decide (x.sessionCode = nanoid gen)) = true := by
      intro hx
      rw [List.any_eq_true] at hx
      obtain ⟨s, hs, he⟩ := hx
      rw [decide_eq_true_eq] at he
      exact h s hs he
    refine ⟨{ id := newId, sessionCode := nanoid gen, status := SessionStatus.created,
              createdAt := createdAt, startedAt := none, completedAt := none,
              desktopConnected := false, mobileConnected := false, metadata := [] },
            ?_, rfl, rfl⟩
    unfold createSession
    rw [if_neg hno]

/-- C8 witness: on the empty database the generated code does not collide
and the session is created with the generated 8-character code. -/
theorem posture_C8_witness :
    ∃ sess, createSession db0 (fun _ => 0) 9 0
        = Except.ok ({ db0 with sessions := db0.sessions ++ [sess] }, sess)
      ∧ sess.sessionCode = nanoid (fun _ => 0) ∧ sess.status = SessionStatus.created :=
  (posture_C8_amended db0 (fun _ => 0) 9 0).2.2.2.2 (fun _ hs => nomatch hs)

/-- On a list sorted by `stepOrder`, `find?` returns an element of minimal
`stepOrder` among those satisfying the predicate. -/
theorem find?_min_of_sorted {l : List PostureStep} {p : PostureStep → Bool} {s : PostureStep}
    (hsort : l.Pairwise stepLE) (hfind : l.find? p = some s) :
    p s = true ∧ s ∈ l ∧ ∀ t ∈ l, p t = true → s.stepOrder ≤ t.stepOrder := by
  induction l with
  | nil => simp at hfind
  | cons x xs ih =>
    rw [List.pairwise_cons] at hsort
    by_cases hpx : p x = true
    · rw [List.find?_cons_of_pos _ hpx] at hfind
      injection hfind with hfind
      subst hfind
      refine ⟨hpx, List.mem_cons_self _ _, ?_⟩
      intro t ht _
      rcases List.mem_cons.mp ht with rfl | ht
      · exact Nat.le_refl _
      · exact hsort.1 t ht
    · rw [List.find?_cons_of_neg _ hpx] at hfind
      obtain ⟨h1, h2, h3⟩ := ih hsort.2 hfind
      refine ⟨h1, List.mem_cons_of_mem _ h2, ?_⟩
      intro t ht hpt
      rcases List.mem_cons.mp ht with rfl | ht
      · exact absurd hpt hpx
      · exact h3 t ht hpt

/-- C2: the sequencer takes the distance of the most recently created
recording (defaulting to nom), excludes the labels completed at that
distance together with the hinted label, and whenever an active step's label
escapes that set it answers the first such step in `stepOrder` order, paired
with the current distance. -/
theorem posture_C2 (recs : List Recording) (steps : List PostureStep) (sid : Nat)
    (hint : Option String)
    (hex : ∃ s ∈ activeStepsSorted steps, s.postureLabel ∉ excludedLabels sid recs hint) :
    ∃ s, getNextPostureStep recs steps sid hint = (some s, currentDistanceOf sid recs)
      ∧ s ∈ steps ∧ s.isActive = true
      ∧ s.postureLabel ∉ excludedLabels sid recs hint
      ∧ ∀ t ∈ steps, t.isActive = true → t.postureLabel ∉ excludedLabels sid recs hint →
          s.stepOrder ≤ t.stepOrder := by
  cases hfind : (activeStepsSorted steps).find?
      (fun s => decide (s.postureLabel ∉ excludedLabels sid recs hint)) with
  | none =>
    exfalso
    obtain ⟨s, hs, hp⟩ := hex
    have hnone := List.find?_eq_none.mp hfind s hs
    simp [hp] at hnone
  | some s =>
    have hsort : (activeStepsSorted steps).Pairwise stepLE :=
      List.sorted_insertionSort stepLE (steps.filter (fun s => s.isActive))
    obtain ⟨h1, h2, h3⟩ := find?_min_of_sorted hsort hfind
    rw [decide_eq_true_eq] at h1
    have h2' : s ∈ steps.filter (fun s => s.isActive) := by
      rw [activeStepsSorted] at h2
      exact (List.mem_insertionSort stepLE).mp h2
    obtain ⟨hmem, hact⟩ := List.mem_filter.mp h2'
    refine ⟨s, ?_, hmem, hact, h1, ?_⟩
    · unfold getNextPostureStep
      rw [hfind]
    · intro t ht htact htp
      have ht' : t ∈ activeStepsSorted steps := by
        rw [activeStepsSorted]
        exact (List.mem_insertionSort stepLE).mpr (List.mem_filter.mpr ⟨ht, htact⟩)
      exact h3 t ht' (decide_eq_true htp)

/-- C2 witness: with no recordings and no hint the sequencer answers the
single catalog step at the default distance nom. -/
theorem posture_C2_witness :
    ∃ s, getNextPostureStep [] steps1 0 none = (some s, currentDistanceOf 0 [])
      ∧ s ∈ steps1 ∧ s.isActive = true
      ∧ s.postureLabel ∉ excludedLabels 0 [] none
      ∧ ∀ t ∈ steps1, t.isActive = true → t.postureLabel ∉ excludedLabels 0 [] none →
          s.stepOrder ≤ t.stepOrder :=
  posture_C2 [] steps1 0 none ⟨stepA, by decide, by decide⟩

/-- C3 counterexample: with an empty ledger and the single step `"a"` hinted
as current, the ordinal scan finds no remaining step at the current distance
nom (which is not the last variant), yet the sequencer answers at distance
nom (the fallback) instead of advancing to close as the claim requires. -/
theorem posture_C3_cex :
    (activeStepsSorted steps1).find?
        (fun s => decide (s.postureLabel ∉ excludedLabels 0 [] (some "a"))) = none
    ∧ currentDistanceOf 0 [] = "nom"
    ∧ (getNextPostureStep [] steps1 0 (some "a")).2 = "nom" := by
  decide

/-- C3 (amended): when the ordinal scan finds no remaining step at the
current distance, the sequencer advances nom → close → far (returning the
first catalog step at the next variant) or reports no next step after far,
but only when the count of completed combinations at the current distance
has reached the active-catalog size; otherwise it falls back to the first
catalog step at the current distance. -/
theorem posture_C3_amended (recs : List Recording) (steps : List PostureStep) (sid : Nat)
    (hint : Option String)
    (hscan : (activeStepsSorted steps).find?
        (fun s => decide (s.postureLabel ∉ excludedLabels sid recs hint)) = none) :
    (currentDistanceOf sid recs = "nom" →
      (activeStepsSorted steps).length ≤ countCombosAt sid recs "nom" →
      getNextPostureStep recs steps sid hint = ((activeStepsSorted steps).head?, "close"))
    ∧ (currentDistanceOf sid recs = "close" →
        (activeStepsSorted steps).length ≤ countCombosAt sid recs "close" →
        getNextPostureStep recs steps sid hint = ((activeStepsSorted steps).head?, "far"))
    ∧ (currentDistanceOf sid recs = "far" →
        (activeStepsSorted steps).length ≤ countCombosAt sid recs "far" →
        getNextPostureStep recs steps sid hint = (none, "far"))
    ∧ (countCombosAt sid recs (currentDistanceOf sid recs)
          < (activeStepsSorted steps).length →
        getNextPostureStep recs steps sid hint
          = ((activeStepsSorted steps).head?, currentDistanceOf sid recs)) := by
  unfold getNextPostureStep
  rw [hscan]
  refine ⟨?_, ?_, ?_, ?_⟩
  · intro h1 h2
    rw [if_pos ⟨h1, h2⟩]
  · intro h1 h2
    rw [if_neg (by rw [h1]; rintro ⟨h, -⟩; exact absurd h (by decide)), if_pos ⟨h1, h2⟩]
  · intro h1 h2
    rw [if_neg (by rw [h1]; rintro ⟨h, -⟩; exact absurd h (by decide)),
      if_neg (by rw [h1]; rintro ⟨h, -⟩; exact absurd h (by decide)), if_pos ⟨h1, h2⟩, h1]
  · intro hlt
    rw [if_neg, if_neg, if_neg]
    · rintro ⟨h1, h2⟩
      rw [h1] at hlt
      exact absurd h2 (Nat.not_le.mpr hlt)
    · rintro ⟨h1, h2⟩
      rw [h1] at hlt
      exact absurd h2 (Nat.not_le.mpr hlt)
    · rintro ⟨h1, h2⟩
      rw [h1] at hlt
      exact absurd h2 (Nat.not_le.mpr hlt)

/-- C3 witness: with the single step counted complete at nom and no hint,
the scan at nom is empty, the nom count reaches the catalog size, and the
sequencer advances to the first step at close. -/
theorem posture_C3_witness :
    getNextPostureStep recsNomDone steps1 0 none = ((activeStepsSorted steps1).head?, "close") :=
  (posture_C3_amended recsNomDone steps1 0 none (by decide)).1 (by decide) (by decide)

/-- C4 counterexample: with the one-step catalog and both roles UPLOADING at
far only (nothing recorded at nom or close), the sequencer reports no next
step although the completed-combinations set has cardinality 1 < 1 × 3 and
does not cover (`"a"`, nom). -/
theorem posture_C4_cex :
    (getNextPostureStep recsFarOnly steps1 0 none).1 = none
    ∧ ¬ ((activeStepsSorted steps1).length * 3 ≤ (seqCompletedCombos 0 recsFarOnly).length)
    ∧ ("a", "nom") ∉ seqCompletedCombos 0 recsFarOnly := by
  decide

/-- C4 (amended): for a nonempty active catalog, the sequencer reports no
next step exactly when the current distance is far, every active step's
label is excluded at far (completed there or hinted), and the count of
completed combinations at far has reached the active-catalog size. -/
theorem posture_C4_amended (recs : List Recording) (steps : List PostureStep) (sid : Nat)
    (hint : Option String) (hne : activeStepsSorted steps ≠ []) :
    (getNextPostureStep recs steps sid hint).1 = none ↔
      (currentDistanceOf sid recs = "far"
        ∧ (activeStepsSorted steps).find?
            (fun s => decide (s.postureLabel ∉ excludedLabels sid recs hint)) = none
        ∧ (activeStepsSorted steps).length ≤ countCombosAt sid recs "far") := by
  have hhead : (activeStepsSorted steps).head? ≠ none := by
    cases h : activeStepsSorted steps with
    | nil => exact absurd h hne
    | cons a t => simp
  unfold getNextPostureStep
  cases hfind : (activeStepsSorted steps).find?
      (fun s => decide (s.postureLabel ∉ excludedLabels sid recs hint)) with
  | some s =>
    constructor
    · intro h
      cases h
    · rintro ⟨-, h, -⟩
      cases h
  | none =>
    split_ifs with h1 h2 h3
    · constructor
      · intro h
        exact absurd h hhead
      · rintro ⟨hfar, -, -⟩
        rw [hfar] at h1
        exact absurd h1.1 (by decide)
    · constructor
      · intro h
        exact absurd h hhead
      · rintro ⟨hfar, -, -⟩
        rw [hfar] at h2
        exact absurd h2.1 (by decide)
    · refine ⟨fun _ => ⟨h3.1, ?_, h3.2⟩, fun _ => rfl⟩
      trivial
    · constructor
      · intro h
        exact absurd h hhead
      · rintro ⟨hfar, -, hcnt⟩
        exact absurd ⟨hfar, hcnt⟩ h3

/-- Filtering the session's COMPLETED rows down to one (label, distance) key
equals one combined filter over the whole table. -/
theorem completed_filter_bridge (recs : List Recording) (sid : Nat) (pl d : String) :
    ((recs.filter (fun r =>
        decide (r.sessionId = sid ∧ r.uploadStatus = UploadStatus.completed))).filter
      (fun r => decide (r.postureLabel = pl ∧ r.distance = d)))
    = recs.filter (fun r =>
        decide (r.sessionId = sid ∧ r.postureLabel = pl ∧ r.distance = d
          ∧ r.uploadStatus = UploadStatus.completed)) := by
  rw [List.filter_filter]
  apply List.filter_congr
  intro x _
  by_cases h1 : x.sessionId = sid <;> by_cases h2 : x.uploadStatus = UploadStatus.completed <;>
    by_cases h3 : x.postureLabel = pl <;> by_cases h4 : x.distance = d <;>
      simp [h1, h2, h3, h4]

/-- A key with exactly two COMPLETED rows belongs to the session-completion
combination set. -/
theorem mem_uploadCompletedCombos (recs : List Recording) (sid : Nat) (pl d : String)
    (hcnt : (recs.filter (fun r =>
        decide (r.sessionId = sid ∧ r.postureLabel = pl ∧ r.distance = d
          ∧ r.uploadStatus = UploadStatus.completed))).length = 2) :
    (pl, d) ∈ uploadCompletedCombos sid recs := by
  have hlen : (((recs.filter (fun r =>
      decide (r.sessionId = sid ∧ r.uploadStatus = UploadStatus.completed)))).filter
        (fun r => decide (r.postureLabel = pl ∧ r.distance = d))).length = 2 := by
    rw [completed_filter_bridge]
    exact hcnt
  have hpos : 0 < (((recs.filter (fun r =>
      decide (r.sessionId = sid ∧ r.uploadStatus = UploadStatus.completed)))).filter
        (fun r => decide (r.postureLabel = pl ∧ r.distance = d))).length := by
    rw [hlen]
    decide
  obtain ⟨x, hx⟩ := List.length_pos_iff_exists_mem.mp hpos
  obtain ⟨hxg, hxkey⟩ := List.mem_filter.mp hx
  rw [decide_eq_true_eq] at hxkey
  unfold uploadCompletedCombos
  refine List.mem_filter.mpr ⟨?_, ?_⟩
  · rw [List.mem_dedup]
    exact List.mem_map.mpr ⟨x, hxg, by rw [hxkey.1, hxkey.2]⟩
  · rw [decide_eq_true_eq]
    exact hlen

/-- C7: when an upload-completed event makes both rows of its (step,
distance) pair COMPLETED, the handler broadcasts `recording_uploaded`; and
when at that point every catalog step crossed with each of the three
distance variants has a pair of COMPLETED rows, it also sets the session
status to COMPLETED and broadcasts `session_completed`. -/
theorem posture_C7 (st : DB) (steps : List PostureStep) (rid fs now : Nat) (r : Recording)
    (hr : (afterUpload st rid fs now).find? (fun x => decide (x.id = rid)) = some r)
    (hpair :
      (pairRecs (afterUpload st rid fs now) r.sessionId r.postureLabel r.distance).length = 2
      ∧ ∀ x ∈ pairRecs (afterUpload st rid fs now) r.sessionId r.postureLabel r.distance,
          x.uploadStatus = UploadStatus.completed) :
    OutEvent.recordingUploaded r.sessionId rid r.postureLabel now
        ∈ (handleUploadCompleted st steps rid fs now).2
    ∧ (((steps.map (fun s => s.postureLabel)).Nodup
        ∧ ∀ s ∈ steps, ∀ d ∈ ["nom", "close", "far"],
            ((afterUpload st rid fs now).filter (fun x =>
              decide (x.sessionId = r.sessionId ∧ x.postureLabel = s.postureLabel
                ∧ x.distance = d ∧ x.uploadStatus = UploadStatus.completed))).length = 2) →
        (OutEvent.sessionCompleted r.sessionId r.sessionId now
            ∈ (handleUploadCompleted st steps rid fs now).2
          ∧ ∀ (i : Nat) (s0 s1 : Session), st.sessions[i]? = some s0 →
              (handleUploadCompleted st steps rid fs now).1.sessions[i]? = some s1 →
              s0.id = r.sessionId → s1.status = SessionStatus.completed)) := by
  have hstep :
      isPairComplete (afterUpload st rid fs now) r.sessionId r.postureLabel r.distance = true := by
    unfold isPairComplete
    rw [Bool.and_eq_true]
    refine ⟨?_, ?_⟩
    · rw [hpair.1]
      rfl
    · rw [List.all_eq_true]
      intro x hx
      rw [decide_eq_true_eq]
      exact hpair.2 x hx
  constructor
  · by_cases hall : steps.length * 3
        ≤ (uploadCompletedCombos r.sessionId (afterUpload st rid fs now)).length
    · simp [handleUploadCompleted, hr, hstep, decide_eq_true hall]
    · simp [handleUploadCompleted, hr, hstep, decide_eq_false hall]
  · rintro ⟨hnd, hcov⟩
    have hsub : (steps.map (fun s => s.postureLabel)) ×ˢ ["nom", "close", "far"]
        ⊆ uploadCompletedCombos r.sessionId (afterUpload st rid fs now) := by
      intro k hk
      obtain ⟨a, b⟩ := k
      rw [List.mem_product] at hk
      obtain ⟨ha, hb⟩ := hk
      obtain ⟨s, hs, hlab⟩ := List.mem_map.mp ha
      subst hlab
      exact mem_uploadCompletedCombos _ _ _ _ (hcov s hs b hb)
    have hnodpairs : ((steps.map (fun s => s.postureLabel)) ×ˢ
        ["nom", "close", "far"]).Nodup :=
      hnd.product (by decide)
    have hlenpairs : ((steps.map (fun s => s.postureLabel)) ×ˢ
        ["nom", "close", "far"]).length = steps.length * 3 := by
      rw [List.length_product, List.length_map]
      rfl
    have hall : steps.length * 3
        ≤ (uploadCompletedCombos r.sessionId (afterUpload st rid fs now)).length := by
      rw [← hlenpairs]
      exact (List.subperm_of_subset hnodpairs hsub).length_le
    refine ⟨by simp [handleUploadCompleted, hr, hstep, decide_eq_true hall], ?_⟩
    intro i s0 s1 hs0 hs1 hid
    simp only [handleUploadCompleted, hr, hstep, decide_eq_true hall, if_true] at hs1
    rw [List.getElem?_map, hs0] at hs1
    simp only [Option.map_some'] at hs1
    injection hs1 with hs1
    subst hs1
    simp only [hid, if_pos]
    rfl

/-- C7 witness: completing the last far-distance upload of the one-step
catalog broadcasts `recording_uploaded` and `session_completed`, and the
session row is set to COMPLETED. -/
theorem posture_C7_witness :
    OutEvent.recordingUploaded 0 6 "a" 99 ∈ (handleUploadCompleted st7 steps1 6 100 99).2
    ∧ OutEvent.sessionCompleted 0 0 99 ∈ (handleUploadCompleted st7 steps1 6 100 99).2 := by
  have h := posture_C7 st7 steps1 6 100 99 _ rfl ⟨by decide, by decide⟩
  exact ⟨h.1, (h.2 ⟨by decide, by decide⟩).1⟩

/-- C4 witness: on the far-only state the equivalence is instantiated — the
sequencer reports no next step and the three right-hand conditions hold. -/
theorem posture_C4_witness :
    (getNextPostureStep recsFarOnly steps1 0 none).1 = none ↔
      (currentDistanceOf 0 recsFarOnly = "far"
        ∧ (activeStepsSorted steps1).find?
            (fun s => decide (s.postureLabel ∉ excludedLabels 0 recsFarOnly none)) = none
        ∧ (activeStepsSorted steps1).length ≤ countCombosAt 0 recsFarOnly "far") :=
  posture_C4_amended recsFarOnly steps1 0 none (by decide)

end Offix
